import Mathlib

/-!
Shallow embedding of the Account REST microservice (src/service/routes.py).

The route handlers `create_accounts`, `list_accounts`, `get_account`,
`update_account`, `delete_account` and the utility `check_content_type` are
translated directly from src/service/routes.py.  The Persistence Collaborator
(`Account.find`, `Account.all`, `account.create`, `account.update`,
`account.delete` from service/models.py, which is not part of the provided
sources) and the Serialization Collaborator (`serialize` / `deserialize`) are
modelled from the spec: persistence is a finite sequence of records together
with the next id it will assign; a record is an integer id plus opaque
business fields (a mapping of string keys to scalar values); deserialization
of a request body either produces the business fields or fails (BadRequest).
-/

namespace AccountService

/-- Business fields of an Account: per the spec, opaque to this core and
treated as a mapping of string keys to scalar values. -/
abbrev Fields := List (String × String)

/-- Modelled from the spec: a request body as seen by the Serialization
Collaborator.  `valid fs` is a body that deserializes into the business
fields `fs`; `malformed` is a body that fails Account deserialization
(malformed JSON or missing required fields). -/
inductive Json where
  | valid (fs : Fields)
  | malformed
deriving DecidableEq, Repr

/-- Modelled from the spec: the Serialization Collaborator's decode step,
`account.deserialize(request.get_json())` in the source.  Returns `none`
exactly when the body fails deserialization (which the service surfaces as
HTTP 400 BadRequest). -/
def deserializeJson : Json → Option Fields
  | .valid fs => some fs
  | .malformed => none

/-- An Account record: integer id (assigned by persistence, immutable) plus
the opaque business fields. -/
structure Account where
  id : Nat
  fields : Fields
deriving DecidableEq, Repr

/-- Modelled from the spec: the Serialization Collaborator's encode step,
`account.serialize()` in the source: the wire form of an Account is its id
together with its business fields. -/
def Account.serialize (a : Account) : Nat × Fields := (a.id, a.fields)

/-- Modelled from the spec: the Persistence Collaborator's state, the sole
owner of record state.  `records` is the stored sequence of Accounts in its
natural enumeration order; `nextId` is the id persistence will assign to the
next created record. -/
structure Db where
  records : List Account
  nextId : Nat
deriving DecidableEq, Repr

/-- Modelled from the spec: `Account.find(account_id)` — find-by-id. -/
def Db.find (db : Db) (i : Nat) : Option Account :=
  db.records.find? (fun a => a.id == i)

/-- Modelled from the spec: `Account.all()` — find-all. -/
def Db.all (db : Db) : List Account := db.records

/-- Modelled from the spec: `account.create()` — insert.  Persistence assigns
the fresh id `nextId` and appends the new record. -/
def Db.insert (db : Db) (fs : Fields) : Account × Db :=
  let a : Account := ⟨db.nextId, fs⟩
  (a, ⟨db.records ++ [a], db.nextId + 1⟩)

/-- Modelled from the spec: `account.update()` — persist an in-place update
of the record with the given id. -/
def Db.updateRec (db : Db) (a : Account) : Db :=
  ⟨db.records.map (fun b => if b.id == a.id then a else b), db.nextId⟩

/-- Modelled from the spec: `account.delete()` — remove the record with the
given id. -/
def Db.deleteRec (db : Db) (i : Nat) : Db :=
  ⟨db.records.filter (fun a => a.id != i), db.nextId⟩

/-- Well-formedness of a persistence state: every stored id is strictly below
the id persistence will assign next (so created ids are previously unused). -/
def Db.wf (db : Db) : Prop := ∀ a ∈ db.records, a.id < db.nextId

/-- An inbound Create/Update request: the declared Content-Type header
(`request.headers.get("Content-Type")`, absent ↦ `none`) and the body. -/
structure Request where
  contentType : Option String
  body : Json
deriving DecidableEq, Repr

/-- Response bodies the handlers produce: one serialized Account, a sequence
of serialized Accounts, or the empty body. -/
inductive RespBody where
  | account (s : Nat × Fields)
  | accounts (l : List (Nat × Fields))
  | empty
deriving DecidableEq, Repr

/-- An HTTP response: a success with status code, body and optional Location
header, or an aborted request with status code and message. -/
inductive Resp where
  | ok (code : Nat) (body : RespBody) (location : Option String)
  | err (code : Nat) (message : String)
deriving DecidableEq, Repr

/-- Truthiness-and-equality test in `check_content_type`: the Python
`content_type and content_type == media_type` — a missing header is `None`
(falsy) and an empty string is falsy, so the test passes exactly when the
header is present, nonempty, and equal to `media_type`. -/
def content_type_ok (content_type : Option String) (media_type : String) : Bool :=
  match content_type with
  | some ct => ct != "" && ct == media_type
  | none => false

/-- Embeds `check_content_type` (routes.py lines 123-132): returns `none`
when the declared content type passes, otherwise the 415 UnsupportedMediaType
abort response naming the expected type. -/
def check_content_type (content_type : Option String) (media_type : String) :
    Option Resp :=
  if content_type_ok content_type media_type then none
  else some (Resp.err 415 ("Content-Type must be " ++ media_type))

/-- Embeds `create_accounts` (routes.py lines 39-53): check content type,
deserialize the body (400 on failure), insert, respond 201 with the
serialized Account and a Location reference to the new resource's read
endpoint. -/
def create_accounts (req : Request) (db : Db) : Resp × Db :=
  match check_content_type req.contentType "application/json" with
  | some e => (e, db)
  | none =>
    match deserializeJson req.body with
    | none => (Resp.err 400 "Bad Request", db)
    | some fs =>
      let (account, db') := db.insert fs
      (Resp.ok 201 (RespBody.account account.serialize)
        (some ("/accounts/" ++ toString account.id)), db')

/-- Embeds `list_accounts` (routes.py lines 59-68): serialize all records,
respond 200. -/
def list_accounts (db : Db) : Resp × Db :=
  (Resp.ok 200 (RespBody.accounts (db.all.map Account.serialize)) none, db)

/-- Embeds `get_account` (routes.py lines 74-83): find by id, 404 with a
descriptive message when absent, otherwise 200 with the serialized
Account. -/
def get_account (account_id : Nat) (db : Db) : Resp × Db :=
  match db.find account_id with
  | none =>
    (Resp.err 404
      ("Account with id [" ++ toString account_id ++ "] could not be found."),
     db)
  | some account => (Resp.ok 200 (RespBody.account account.serialize) none, db)

/-- Embeds `update_account` (routes.py lines 89-102): find by id (404 when
absent), then check content type, then deserialize into the existing record
(fields replaced, id unchanged; 400 on failure), persist, respond 200. -/
def update_account (account_id : Nat) (req : Request) (db : Db) : Resp × Db :=
  match db.find account_id with
  | none =>
    (Resp.err 404
      ("Account with id [" ++ toString account_id ++ "] could not be found."),
     db)
  | some account =>
    match check_content_type req.contentType "application/json" with
    | some e => (e, db)
    | none =>
      match deserializeJson req.body with
      | none => (Resp.err 400 "Bad Request", db)
      | some fs =>
        let account' : Account := { account with fields := fs }
        (Resp.ok 200 (RespBody.account account'.serialize) none,
         db.updateRec account')

/-- Embeds `delete_account` (routes.py lines 108-117): find by id, delete
when present, respond 204 with empty body either way. -/
def delete_account (account_id : Nat) (db : Db) : Resp × Db :=
  match db.find account_id with
  | some _ => (Resp.ok 204 RespBody.empty none, db.deleteRec account_id)
  | none => (Resp.ok 204 RespBody.empty none, db)

/-! Helper lemmas shared by several claims. -/

/-- The content-type test passes exactly on the literal `application/json`. -/
theorem content_type_ok_iff (ct : Option String) :
    content_type_ok ct "application/json" = true ↔ ct = some "application/json" := by
  cases ct with
  | none => simp [content_type_ok]
  | some s =>
    simp only [content_type_ok, Bool.and_eq_true, bne_iff_ne, ne_eq, beq_iff_eq,
      Option.some.injEq]
    constructor
    · exact fun h => h.2
    · intro h
      refine ⟨?_, h⟩
      rw [h]
      decide

/-- On a mismatching (or absent) content type, `check_content_type` produces
the 415 abort response. -/
theorem check_content_type_fail (ct : Option String)
    (h : ct ≠ some "application/json") :
    check_content_type ct "application/json" =
      some (Resp.err 415 ("Content-Type must be " ++ "application/json")) := by
  have hok : content_type_ok ct "application/json" = false := by
    rcases hb : content_type_ok ct "application/json" with _ | _
    · rfl
    · exact absurd ((content_type_ok_iff ct).mp hb) h
  simp [check_content_type, hok]

/-- On the exact content type `application/json`, the check passes. -/
theorem check_content_type_pass :
    check_content_type (some "application/json") "application/json" = none := by
  decide

/-- The check either passes or aborts with the specific 415 response. -/
theorem check_content_type_eq_none_or (ct : Option String) (mt : String) :
    check_content_type ct mt = none ∨
      check_content_type ct mt =
        some (Resp.err 415 ("Content-Type must be " ++ mt)) := by
  unfold check_content_type
  rcases h : content_type_ok ct mt with _ | _ <;> simp

/-- Successful Create in one equation: on the right content type and a
deserializable body, the response is 201 with the serialized new record and a
Location for its read endpoint, and the new record is appended with the
persistence-assigned id. -/
theorem create_accounts_spec (req : Request) (db : Db) (fs : Fields)
    (hct : req.contentType = some "application/json")
    (hb : deserializeJson req.body = some fs) :
    create_accounts req db =
      (Resp.ok 201 (RespBody.account (db.nextId, fs))
        (some ("/accounts/" ++ toString db.nextId)),
       Db.mk (db.records ++ [Account.mk db.nextId fs]) (db.nextId + 1)) := by
  simp [create_accounts, hct, check_content_type_pass, hb, Db.insert,
    Account.serialize]

/-- Finding the freshly appended record: if every stored id is below `n`,
find-by-id on `n` after appending a record with id `n` returns that
record. -/
theorem find_append_new (l : List Account) (n : Nat) (fs : Fields)
    (h : ∀ a ∈ l, a.id < n) :
    (l ++ [Account.mk n fs]).find? (fun a => a.id == n) =
      some (Account.mk n fs) := by
  induction l with
  | nil => simp
  | cons b t ih =>
    have hb : b.id < n := h b (List.mem_cons_self b t)
    have hbe : (b.id == n) = false := by
      simp [Nat.ne_of_lt hb]
    simp only [List.cons_append, List.find?_cons, hbe]
    exact ih (fun a ha => h a (List.mem_cons_of_mem b ha))

/-! Claim theorems. -/

/-- C1 (amended): a Create request whose declared Content-Type is anything
other than exactly `application/json` (including a missing header) fails
with 415 UnsupportedMediaType carrying a message naming the expected type,
regardless of the body, leaving persistence unchanged; the same holds for an
Update request provided the path id exists (when it does not, the existence
check runs first and yields 404 instead). -/
theorem C1_content_type_enforced (req : Request) (db : Db) (i : Nat)
    (hct : req.contentType ≠ some "application/json") :
    create_accounts req db =
      (Resp.err 415 ("Content-Type must be " ++ "application/json"), db) ∧
    ((db.find i).isSome = true →
      update_account i req db =
        (Resp.err 415 ("Content-Type must be " ++ "application/json"), db)) := by
  have hccf := check_content_type_fail req.contentType hct
  constructor
  · simp [create_accounts, hccf]
  · intro hfind
    obtain ⟨a, ha⟩ := Option.isSome_iff_exists.mp hfind
    simp [update_account, ha, hccf]

/-- C1 witness: a concrete `text/plain` Create and Update (existing id 1)
both abort with 415. -/
theorem C1_content_type_enforced_witness :
    create_accounts (Request.mk (some "text/plain") (Json.valid []))
        (Db.mk [Account.mk 1 []] 2) =
      (Resp.err 415 ("Content-Type must be " ++ "application/json"),
       Db.mk [Account.mk 1 []] 2) ∧
    update_account 1 (Request.mk (some "text/plain") (Json.valid []))
        (Db.mk [Account.mk 1 []] 2) =
      (Resp.err 415 ("Content-Type must be " ++ "application/json"),
       Db.mk [Account.mk 1 []] 2) := by
  have h := C1_content_type_enforced
    (Request.mk (some "text/plain") (Json.valid [])) (Db.mk [Account.mk 1 []] 2) 1
    (by decide)
  exact ⟨h.1, h.2 (by decide)⟩

/-- C1 counterexample: the claim also asserts 415 for Update regardless of
whether the path id exists, but on a nonexistent id the handler checks
existence first and answers 404, not 415: a `text/plain` Update of id 1
against an empty persistence state yields 404. -/
theorem C1_counterexample :
    update_account 1 (Request.mk (some "text/plain") (Json.valid []))
        (Db.mk [] 1) =
      (Resp.err 404
        ("Account with id [" ++ toString 1 ++ "] could not be found."),
       Db.mk [] 1) := by
  decide

/-- C2: an Update on a path id matching no persisted Account fails with 404
NotFound and leaves persistence unchanged, for every content type and body —
the existence check precedes Content-Type validation, deserialization, and
any persistence write. -/
theorem C2_update_not_found (i : Nat) (req : Request) (db : Db)
    (h : db.find i = none) :
    update_account i req db =
      (Resp.err 404
        ("Account with id [" ++ toString i ++ "] could not be found."),
       db) := by
  simp [update_account, h]

/-- C2 witness: updating id 5, absent from a one-record store, with a
missing Content-Type header and a malformed body, still answers 404 and
leaves the store unchanged. -/
theorem C2_update_not_found_witness :
    update_account 5 (Request.mk none Json.malformed) (Db.mk [Account.mk 1 []] 2) =
      (Resp.err 404
        ("Account with id [" ++ toString 5 ++ "] could not be found."),
       Db.mk [Account.mk 1 []] 2) :=
  C2_update_not_found 5 (Request.mk none Json.malformed)
    (Db.mk [Account.mk 1 []] 2) (by decide)

/-- C3: Update is atomic with respect to persisted state — either the
addressed Account has all its business fields replaced from the body with
its id unchanged, the result is persisted and answered with 200, or the
request fails with 404, 415, or 400 before any persistence write, leaving
the store unchanged. -/
theorem C3_update_atomic (i : Nat) (req : Request) (db : Db) :
    (∃ a fs, db.find i = some a ∧ deserializeJson req.body = some fs ∧
        update_account i req db =
          (Resp.ok 200 (RespBody.account (a.id, fs)) none,
           db.updateRec (Account.mk a.id fs))) ∨
    ((update_account i req db).2 = db ∧
      ∃ m, (update_account i req db).1 = Resp.err 404 m ∨
           (update_account i req db).1 = Resp.err 415 m ∨
           (update_account i req db).1 = Resp.err 400 m) := by
  cases hf : db.find i with
  | none =>
    right
    refine ⟨by simp [update_account, hf],
      "Account with id [" ++ toString i ++ "] could not be found.",
      Or.inl ?_⟩
    simp [update_account, hf]
  | some a =>
    rcases check_content_type_eq_none_or req.contentType "application/json"
      with hcc | hcc
    · cases hb : deserializeJson req.body with
      | none =>
        right
        refine ⟨by simp [update_account, hf, hcc, hb],
          "Bad Request", Or.inr (Or.inr ?_)⟩
        simp [update_account, hf, hcc, hb]
      | some fs =>
        left
        exact ⟨a, fs, rfl, rfl,
          by simp [update_account, hf, hcc, hb, Account.serialize]⟩
    · right
      refine ⟨by simp [update_account, hf, hcc],
        "Content-Type must be " ++ "application/json", Or.inr (Or.inl ?_)⟩
      simp [update_account, hf, hcc]

/-- C4: Delete is idempotent and never errors — for every id it answers 204
with an empty body whether or not a matching record exists, deleting the
same id twice answers 204 both times, the record is removed when present,
and List afterwards excludes that id. -/
theorem C4_delete_idempotent (i : Nat) (db : Db) :
    (delete_account i db).1 = Resp.ok 204 RespBody.empty none ∧
    (delete_account i (delete_account i db).2).1 =
      Resp.ok 204 RespBody.empty none ∧
    (∀ a ∈ ((delete_account i db).2).records, a.id ≠ i) ∧
    (list_accounts (delete_account i db).2).1 =
      Resp.ok 200
        (RespBody.accounts (((delete_account i db).2).records.map Account.serialize))
        none ∧
    ∀ s ∈ ((delete_account i db).2).records.map Account.serialize, s.1 ≠ i := by
  have h204 : ∀ d : Db, (delete_account i d).1 = Resp.ok 204 RespBody.empty none := by
    intro d
    unfold delete_account
    cases d.find i <;> rfl
  have hgone : ∀ a ∈ ((delete_account i db).2).records, a.id ≠ i := by
    intro a ha
    unfold delete_account at ha
    cases hf : db.find i with
    | none =>
      rw [hf] at ha
      have := List.find?_eq_none.mp hf a ha
      simpa using this
    | some b =>
      rw [hf] at ha
      have := (List.mem_filter.mp ha).2
      simpa using this
  refine ⟨h204 db, h204 _, hgone, ?_, ?_⟩
  · rfl
  · intro s hs
    rcases List.mem_map.mp hs with ⟨a, ha, rfl⟩
    exact hgone a ha

/-- C5: a Create request with Content-Type exactly `application/json` and a
body deserializing into valid Account fields persists exactly one new record
with the persistence-assigned id, and answers 201 with the serialized
created Account and a Location referencing the Read endpoint for the new
id. -/
theorem C5_create_success (req : Request) (db : Db) (fs : Fields)
    (hct : req.contentType = some "application/json")
    (hb : deserializeJson req.body = some fs) :
    create_accounts req db =
      (Resp.ok 201 (RespBody.account (db.nextId, fs))
        (some ("/accounts/" ++ toString db.nextId)),
       Db.mk (db.records ++ [Account.mk db.nextId fs]) (db.nextId + 1)) :=
  create_accounts_spec req db fs hct hb

/-- C5 witness: creating `name ↦ Alice` in an empty store yields 201 with id
1, a Location to its read endpoint, and the single appended record. -/
theorem C5_create_success_witness :
    create_accounts
        (Request.mk (some "application/json") (Json.valid [("name", "Alice")]))
        (Db.mk [] 1) =
      (Resp.ok 201 (RespBody.account (1, [("name", "Alice")]))
        (some ("/accounts/" ++ toString 1)),
       Db.mk [Account.mk 1 [("name", "Alice")]] 2) :=
  C5_create_success
    (Request.mk (some "application/json") (Json.valid [("name", "Alice")]))
    (Db.mk [] 1) [("name", "Alice")] rfl rfl

/-- C6: Read answers 404 — with a message containing the requested id — when
no Account with that id exists, and otherwise 200 with the serialized
Account; persistence is unchanged either way. -/
theorem C6_read_by_id (i : Nat) (db : Db) :
    (db.find i = none →
      get_account i db =
        (Resp.err 404
          ("Account with id [" ++ toString i ++ "] could not be found."),
         db) ∧
      ∃ pre post,
        ("Account with id [" ++ toString i ++ "] could not be found.") =
          pre ++ toString i ++ post) ∧
    (∀ a, db.find i = some a →
      get_account i db = (Resp.ok 200 (RespBody.account a.serialize) none, db)) := by
  constructor
  · intro h
    exact ⟨by simp [get_account, h],
      "Account with id [", "] could not be found.", rfl⟩
  · intro a h
    simp [get_account, h]

/-- C6 witness: reading the never-created id 999999 from an empty store
answers 404 with a message containing 999999. -/
theorem C6_read_by_id_witness :
    get_account 999999 (Db.mk [] 1) =
      (Resp.err 404
        ("Account with id [" ++ toString 999999 ++ "] could not be found."),
       Db.mk [] 1) :=
  ((C6_read_by_id 999999 (Db.mk [] 1)).1 (by decide)).1

/-- C7: after a successful Create, an immediately following Read using the
id returned by Create answers 200 with a body equal to the Create response
body (the well-formedness hypothesis says persistence assigns previously
unused ids, as the spec states). -/
theorem C7_create_then_read (req : Request) (db : Db) (fs : Fields)
    (hwf : db.wf)
    (hct : req.contentType = some "application/json")
    (hb : deserializeJson req.body = some fs) :
    (create_accounts req db).1 =
      Resp.ok 201 (RespBody.account (db.nextId, fs))
        (some ("/accounts/" ++ toString db.nextId)) ∧
    (get_account db.nextId (create_accounts req db).2).1 =
      Resp.ok 200 (RespBody.account (db.nextId, fs)) none := by
  rw [create_accounts_spec req db fs hct hb]
  refine ⟨rfl, ?_⟩
  have hfind :
      (Db.mk (db.records ++ [Account.mk db.nextId fs]) (db.nextId + 1)).find
        db.nextId = some (Account.mk db.nextId fs) := by
    unfold Db.find
    exact find_append_new db.records db.nextId fs hwf
  simp [get_account, hfind, Account.serialize]

/-- C7 witness: create `name ↦ Alice` in an empty well-formed store, then
read id 1: the Read body equals the Create body. -/
theorem C7_create_then_read_witness :
    (create_accounts
        (Request.mk (some "application/json") (Json.valid [("name", "Alice")]))
        (Db.mk [] 1)).1 =
      Resp.ok 201 (RespBody.account (1, [("name", "Alice")]))
        (some ("/accounts/" ++ toString 1)) ∧
    (get_account 1
        (create_accounts
          (Request.mk (some "application/json") (Json.valid [("name", "Alice")]))
          (Db.mk [] 1)).2).1 =
      Resp.ok 200 (RespBody.account (1, [("name", "Alice")])) none :=
  C7_create_then_read
    (Request.mk (some "application/json") (Json.valid [("name", "Alice")]))
    (Db.mk [] 1) [("name", "Alice")]
    (by intro a ha; simp at ha) rfl rfl

/-- C8: List answers 200 with the serialization of every persisted Account,
one element per record, leaves persistence unchanged, and never fails; in
particular an empty store yields the empty sequence. -/
theorem C8_list_all (db : Db) :
    list_accounts db =
      (Resp.ok 200 (RespBody.accounts (db.records.map Account.serialize)) none,
       db) ∧
    (db.records.map Account.serialize).length = db.records.length := by
  exact ⟨rfl, by simp⟩

/-- C9: Create is atomic on failure — whenever Create aborts, the store is
unchanged and the status is 415 (content type checked before anything else)
or 400 (deserialization checked before the insert). -/
theorem C9_create_failure_frame (req : Request) (db : Db) (c : Nat) (m : String)
    (h : (create_accounts req db).1 = Resp.err c m) :
    (create_accounts req db).2 = db ∧ (c = 415 ∨ c = 400) := by
  rcases check_content_type_eq_none_or req.contentType "application/json"
    with hcc | hcc
  · cases hb : deserializeJson req.body with
    | none =>
      refine ⟨by simp [create_accounts, hcc, hb], Or.inr ?_⟩
      simp [create_accounts, hcc, hb] at h
      exact h.1.symm
    | some fs =>
      exfalso
      simp [create_accounts, hcc, hb, Db.insert] at h
  · refine ⟨by simp [create_accounts, hcc], Or.inl ?_⟩
    simp [create_accounts, hcc] at h
    exact h.1.symm

/-- C9 witness: a Create with a missing Content-Type header against an empty
store fails, the store is unchanged, and the status is 415. -/
theorem C9_create_failure_frame_witness :
    (create_accounts (Request.mk none (Json.valid [])) (Db.mk [] 1)).2 =
      Db.mk [] 1 ∧ ((415 : Nat) = 415 ∨ (415 : Nat) = 400) :=
  C9_create_failure_frame (Request.mk none (Json.valid [])) (Db.mk [] 1) 415
    ("Content-Type must be " ++ "application/json") (by decide)

/-- C10: Read and List are pure with respect to persistence — they only
consult find-by-id and find-all, and the persisted state after the request
equals the state before it. -/
theorem C10_read_list_pure (i : Nat) (db : Db) :
    (get_account i db).2 = db ∧ (list_accounts db).2 = db := by
  refine ⟨?_, rfl⟩
  unfold get_account
  cases db.find i with
  | none => rfl
  | some a => rfl

end AccountService
